import Mathlib

/-
Verification of the intent-routing and response-resolution core of the
forsta-ai-bot repository (src/index.js), as described by its design spec.

The JavaScript source is shallowly embedded: JS strings become `String`,
JS objects become structures, optional/undefined fields become `Option`,
thrown exceptions become `Except`, and the two external directory "patch"
operations are modelled as applying the requested field updates to the
in-memory identity snapshot (the spec declares the server authoritative;
the claims below only depend on *whether* and *with what arguments* the
patch operations are invoked, which the state tracks with counters and
last-argument fields).
-/

/-! ## Data model -/

/-- Tag record: `{id, slug}` (src/index.js, BotIdentity.tag). -/
structure Tag where
  id : String
  slug : String
deriving DecidableEq

/-- Org record: `{slug}`. -/
structure Org where
  slug : String
deriving DecidableEq

/-- Bot identity snapshot: `{id, first_name, middle_name, last_name, tag, org}`.
JS `undefined` name fields behave like the empty string for the regex
matching below (an undefined pattern yields the empty regex). -/
structure BotUser where
  id : String
  first_name : String
  middle_name : String
  last_name : String
  tag : Tag
  org : Org
deriving DecidableEq

/-- A resolved distribution: the member ids of the conversation
(`dist.userids` in src/index.js line 74). -/
structure Distribution where
  userids : List String
deriving DecidableEq

/-! ## Case-insensitive containment

`text.match(new RegExp(pat, 'i'))` in src/index.js lines 80-82 with a
literal (metacharacter-free) pattern is case-insensitive substring
search; for an empty pattern it matches every text.  We model it on
character lists. -/

/-- Predicate `leadsWith pat l` is true when `pat` is an initial segment of `l`. -/
def leadsWith : List Char → List Char → Bool
  | [], _ => true
  | _ :: _, [] => false
  | a :: as, b :: bs => a == b && leadsWith as bs

/-- Predicate `occursIn pat l` is true when `pat` occurs contiguously inside `l`. -/
def occursIn (pat : List Char) : List Char → Bool
  | [] => leadsWith pat []
  | c :: cs => leadsWith pat (c :: cs) || occursIn pat cs

/-- Lower-case a character list. -/
def lowerList (l : List Char) : List Char := l.map Char.toLower

/-- Case-insensitive containment of `pat` in `text`
(the `new RegExp(pat, 'i')` match of src/index.js). -/
def ciContains (text pat : String) : Bool :=
  occursIn (lowerList pat.data) (lowerList text.data)

/-! ## Addressing policy (src/index.js lines 73-85) -/

/-- Function `needsResponse` from src/index.js lines 73-85.  The JS closure builds
`members = new Set(dist.userids)`, deletes the bot id and the sender,
answers `true` for an empty remainder (DM) or a case-insensitive match of
first name / last name / tag slug, and otherwise falls through returning
`undefined`; used only in boolean position, the falsy fall-through is
rendered as `false`. -/
def needsResponse (bot : BotUser) (sender : String) (dist : Distribution)
    (text : String) : Bool :=
  let members := dist.userids.filter (fun m => !(m == bot.id) && !(m == sender))
  if members.isEmpty then
    true
  else
    ciContains text bot.first_name || ciContains text bot.last_name ||
      ciContains text bot.tag.slug

/-- The addressing policy as the spec words it (§4.1): compute
`others = distribution.members - \x7bbotId, senderId\x7d`; empty → true; else
true exactly when the text case-insensitively contains the bot's first
name, last name, or tag slug. -/
def needsResponseSpec (bot : BotUser) (sender : String) (dist : Distribution)
    (text : String) : Bool :=
  if dist.userids.all (fun m => m == bot.id || m == sender) then
    true
  else
    ciContains text bot.first_name || ciContains text bot.last_name ||
      ciContains text bot.tag.slug

theorem filter_isEmpty_eq_all (p : α → Bool) (l : List α) :
    (l.filter p).isEmpty = l.all (fun x => !p x) := by
  induction l with
  | nil => rfl
  | cons a t ih =>
    by_cases h : p a = true
    · simp [List.filter_cons, h, List.all_cons, List.isEmpty]
    · simp only [Bool.not_eq_true] at h
      simp [List.filter_cons, h, List.all_cons, ih]

/-- Claim C1: for every senderId, distribution, and text, `needsResponse`
returns true when the distribution members minus the bot id and the
sender are empty, and otherwise returns true exactly when the text
case-insensitively contains the bot's first name, last name, or tag
slug — i.e. the code agrees with the spec's formulation. -/
theorem spec_c1_needsResponse (bot : BotUser) (sender : String)
    (dist : Distribution) (text : String) :
    needsResponse bot sender dist text = needsResponseSpec bot sender dist text := by
  have hcond : ∀ m : String, (!(!(m == bot.id) && !(m == sender)))
      = (m == bot.id || m == sender) := by
    intro m
    cases hm : (m == bot.id) <;> cases hs : (m == sender) <;> rfl
  simp only [needsResponse, needsResponseSpec, filter_isEmpty_eq_all, hcond]

/-! ## Intent registry (src/index.js lines 148-160, 257-265)

The constructor walks the prototype's own property names, keeps those
starting with "handle", rewrites `CaseStyleName` to `.case.style.name`
via `prop.replace(/([A-Z])/g, x => '.' + x.toLowerCase())`, drops the
first 7 characters (`substr(7)`, i.e. "handle" plus the inserted dot),
and stores the resulting key bound to the method. -/

/-- The three handler methods, as an enumeration standing for the bound
callables. -/
inductive HandlerId where
  | get
  | change
  | delete
deriving DecidableEq

/-- Insert a dot before each ASCII upper-case letter and lower-case it
(the `replace(/([A-Z])/g, ...)` step). -/
def dotLower : List Char → List Char
  | [] => []
  | c :: cs => if c.isUpper then '.' :: c.toLower :: dotLower cs else c :: dotLower cs

/-- Derived intent key of a prototype property name: dotted lower-case
form with the first 7 characters removed (`substr(7)`). -/
def intentKey (prop : String) : String :=
  String.mk ((dotLower prop.data).drop 7)

/-- Result of `Object.getOwnPropertyNames(Object.getPrototypeOf(this))` for class
`IntentManager`: `constructor` plus the methods in declaration order. -/
def protoProps : List String :=
  ["constructor", "updateBotUser", "updateBotTag", "handleNameAgentGet",
   "handleNameAgentChange", "handleNameAgentDelete", "findHandler"]

/-- Which method object a prototype property denotes, for the
handler-shaped ones. -/
def methodImpl : String → Option HandlerId
  | "handleNameAgentGet" => some HandlerId.get
  | "handleNameAgentChange" => some HandlerId.change
  | "handleNameAgentDelete" => some HandlerId.delete
  | _ => none

/-- The handlers map built by the constructor: every property whose name
starts with "handle" is stored under its derived intent key. -/
def registry : List (String × HandlerId) :=
  protoProps.filterMap fun p =>
    if leadsWith "handle".data p.data then
      (methodImpl p).map fun h => (intentKey p, h)
    else
      none

/-- Lookup `findHandler(name)`: exact-match lookup in the handlers map;
absence is returned, not raised (src/index.js lines 257-265). -/
def findHandler (name : String) : Option HandlerId :=
  (registry.find? fun kv => kv.1 == name).map Prod.snd

/-- Claim C3: each handler-shaped capability name is stored under its
dotted lower-case key with the fixed 7-character lead removed; in
particular `handleNameAgentGet` derives the key `name.agent.get`, the
registry holds exactly the three derived keys, and lookup of
`name.agent.get` yields the corresponding callable. -/
theorem spec_c3_intent_keys :
    intentKey "handleNameAgentGet" = "name.agent.get" ∧
    registry = [("name.agent.get", HandlerId.get),
                ("name.agent.change", HandlerId.change),
                ("name.agent.delete", HandlerId.delete)] ∧
    findHandler "name.agent.get" = some HandlerId.get := by
  refine ⟨?_, ?_, ?_⟩ <;> decide

/-! ## Distribution cache (src/index.js lines 70, 101-105)

`distCache` is a `Map` from distribution expression to resolved
distribution; on each message the listener fetches via
`atlas.resolveTags` only when the key is absent, then reads the entry.
We model one cache access: the resulting distribution, the updated
cache, and how many times the external resolver ran during the call. -/

/-- Association-list lookup standing for `Map.get`/`Map.has`. -/
def lookupDist : List (String × Distribution) → String → Option Distribution
  | [], _ => none
  | (k, v) :: rest, e => if k = e then some v else lookupDist rest e

/-- Result of one cache access. -/
structure ResolveOut where
  dist : Distribution
  cache : List (String × Distribution)
  calls : Nat
deriving DecidableEq

/-- One pass over src/index.js lines 102-105: on a miss, call the
external resolver once and store its result keyed by the expression;
then read the entry. -/
def resolveDist (cache : List (String × Distribution)) (expr : String)
    (resolver : String → Distribution) : ResolveOut :=
  match lookupDist cache expr with
  | some d => ⟨d, cache, 0⟩
  | none =>
    let d := resolver expr
    ⟨d, (expr, d) :: cache, 1⟩

/-- Claim C5: resolving the same expression twice invokes the external
resolver exactly once — the first (miss) access calls it once and caches
the result under the expression; the second access returns the cached
value with zero resolver calls and leaves the cache unchanged. -/
theorem spec_c5_cache (cache : List (String × Distribution)) (expr : String)
    (resolver : String → Distribution) (h : lookupDist cache expr = none) :
    (resolveDist cache expr resolver).calls = 1 ∧
    (resolveDist cache expr resolver).cache = (expr, resolver expr) :: cache ∧
    (resolveDist (resolveDist cache expr resolver).cache expr resolver).calls = 0 ∧
    (resolveDist (resolveDist cache expr resolver).cache expr resolver).dist
      = (resolveDist cache expr resolver).dist ∧
    (resolveDist (resolveDist cache expr resolver).cache expr resolver).cache
      = (resolveDist cache expr resolver).cache := by
  simp [resolveDist, h, lookupDist]

/-- Witness for C5 at a concrete empty cache and expression. -/
theorem spec_c5_cache_witness :
    (resolveDist [] "@a:org" fun _ => ⟨["u1", "u2"]⟩).calls = 1 ∧
    (resolveDist [] "@a:org" fun _ => ⟨["u1", "u2"]⟩).cache
      = [("@a:org", ⟨["u1", "u2"]⟩)] ∧
    (resolveDist (resolveDist [] "@a:org" fun _ => ⟨["u1", "u2"]⟩).cache "@a:org"
      fun _ => ⟨["u1", "u2"]⟩).calls = 0 ∧
    (resolveDist (resolveDist [] "@a:org" fun _ => ⟨["u1", "u2"]⟩).cache "@a:org"
      fun _ => ⟨["u1", "u2"]⟩).dist
      = (resolveDist [] "@a:org" fun _ => ⟨["u1", "u2"]⟩).dist ∧
    (resolveDist (resolveDist [] "@a:org" fun _ => ⟨["u1", "u2"]⟩).cache "@a:org"
      fun _ => ⟨["u1", "u2"]⟩).cache
      = (resolveDist [] "@a:org" fun _ => ⟨["u1", "u2"]⟩).cache :=
  spec_c5_cache [] "@a:org" (fun _ => ⟨["u1", "u2"]⟩) rfl

/-! ## Identity handler state (src/index.js lines 162-178)

`updateBotUser` PATCHes `/v1/user/<id>/` and `updateBotTag` PATCHes
`/v1/tag/<id>/`, each replacing the in-memory snapshot with the server's
returned representation.  The external directory service is modelled as
applying the requested fields (fields absent from the JSON patch — JS
`undefined` — leave the stored value alone).  The state additionally
records how often each patch endpoint was called and with which
argument, which is what the frame-effect claims are about. -/

/-- A user PATCH body: each field present or absent. -/
structure UserUpdates where
  first_name : Option String
  middle_name : Option String
  last_name : Option String
deriving DecidableEq

/-- The empty PATCH body `{}`. -/
def emptyUpdates : UserUpdates := ⟨none, none, none⟩

/-- Handler parameters from the NLU result: `params.type` and
`params.name`, each possibly absent. -/
structure Params where
  type : Option String
  name : Option String
deriving DecidableEq

/-- Bot-side state threaded through the handlers. -/
structure BotSt where
  bot : BotUser
  userPatchCount : Nat
  tagPatchCount : Nat
  lastUserPatch : Option UserUpdates
  lastTagPatch : Option String
deriving DecidableEq

/-- Server application of a user PATCH. -/
def applyUserUpdates (u : UserUpdates) (b : BotUser) : BotUser :=
  { b with
    first_name := u.first_name.getD b.first_name,
    middle_name := u.middle_name.getD b.middle_name,
    last_name := u.last_name.getD b.last_name }

/-- Method `updateBotUser` (src/index.js lines 162-169). -/
def updateBotUser (u : UserUpdates) (st : BotSt) : BotUser × BotSt :=
  let bot := applyUserUpdates u st.bot
  (bot, { st with
          bot := bot,
          userPatchCount := st.userPatchCount + 1,
          lastUserPatch := some u })

/-- Method `updateBotTag` (src/index.js lines 171-178); the PATCH body is
`{slug}`. -/
def updateBotTag (slug : String) (st : BotSt) : Tag × BotSt :=
  let tag : Tag := { st.bot.tag with slug := slug }
  (tag, { st with
          bot := { st.bot with tag := tag },
          tagPatchCount := st.tagPatchCount + 1,
          lastTagPatch := some slug })

/-- The confirmation sentence shared by the change and delete handlers:
``Okay, I'm now ${bot.first_name} ${bot.middle_name} ${bot.last_name}``. -/
def nowMsg (b : BotUser) : String :=
  "Okay, I'm now " ++ b.first_name ++ " " ++ b.middle_name ++ " " ++ b.last_name

/-! ## Slug normalization and whitespace splitting -/

/-- Step `replace(/\s+/g, '.')`: each maximal whitespace run becomes a single
dot.  The boolean argument tracks whether we are inside a run. -/
def collapseWsGo : Bool → List Char → List Char
  | _, [] => []
  | inRun, c :: cs =>
    if c.isWhitespace then
      if inRun then collapseWsGo true cs else '.' :: collapseWsGo true cs
    else
      c :: collapseWsGo false cs

/-- Normalization `params.name.replace(/\s+/g, '.').toLowerCase()`
(src/index.js line 215); lower-casing is per character, as in
`String.toLower`, but spelled out so that it reduces in the kernel. -/
def slugify (name : String) : String :=
  String.mk (lowerList (collapseWsGo false name.data))

/-- Splitting `s.split(/\s+/)` in JS: separators are maximal whitespace runs, a
leading or trailing run contributes an empty field.  `some acc` means a
field is being accumulated (in reverse), `none` means the previous
character ended a field. -/
def splitWsGo : Option (List Char) → List Char → List String
  | some acc, [] => [String.mk acc.reverse]
  | none, [] => [""]
  | some acc, c :: cs =>
    if c.isWhitespace then String.mk acc.reverse :: splitWsGo none cs
    else splitWsGo (some (c :: acc)) cs
  | none, c :: cs =>
    if c.isWhitespace then splitWsGo none cs
    else splitWsGo (some [c]) cs

/-- Splitting `name.split(/\s+/)` on a whole string. -/
def splitWs (s : String) : List String :=
  splitWsGo (some []) s.data

/-! ## Change handler (src/index.js lines 204-235) -/

/-- The `else if (params.name)` / `else` tail of the change handler
(src/index.js lines 221-232), reached when `params.type` is falsy —
absent or the empty string: an absent or empty (falsy) `name` yields
`'To what?'`, otherwise the name is split on whitespace into at most 3
tokens and assigned by token count. -/
def changeByName (params : Params) (st : BotSt) :
    Except String (String × BotSt) :=
  match params.name with
  | some n =>
    if n = "" then
      Except.ok ("To what?", st)
    else
      let names := (splitWs n).take 3
      let upd : UserUpdates :=
        { first_name := names.get? 0,
          middle_name := if names.length = 3 then names.get? 1 else none,
          last_name :=
            if names.length = 2 then names.get? 1
            else if names.length = 3 then names.get? 2
            else none }
      let r := updateBotUser upd st
      Except.ok (nowMsg r.1, r.2)
  | none => Except.ok ("To what?", st)

/-- Handler `handleNameAgentChange`.  The guard `if (params.type)`
(src/index.js line 207) is a truthiness test: an absent or empty-string
`type` takes the `changeByName` tail.  `Except` models a thrown JS
exception: with `type === 'tag'` and no `name`, `params.name.replace`
raises a `TypeError`.  A present, non-empty, unrecognized `type` only
logs a warning and still reaches the `updateBotUser(updates)` call with
the empty body. -/
def handleNameAgentChange (params : Params) (st : BotSt) :
    Except String (String × BotSt) :=
  match params.type with
  | some t =>
    if t = "" then
      changeByName params st
    else if t = "first name" then
      let r := updateBotUser { emptyUpdates with first_name := params.name } st
      Except.ok (nowMsg r.1, r.2)
    else if t = "last name" then
      let r := updateBotUser { emptyUpdates with last_name := params.name } st
      Except.ok (nowMsg r.1, r.2)
    else if t = "middle name" then
      let r := updateBotUser { emptyUpdates with middle_name := params.name } st
      Except.ok (nowMsg r.1, r.2)
    else if t = "tag" then
      match params.name with
      | none => Except.error "TypeError: Cannot read property of undefined"
      | some n =>
        let r := updateBotTag (slugify n) st
        Except.ok ("Okay, my tag is now @" ++ r.1.slug ++ ":" ++ r.2.bot.org.slug,
                   r.2)
    else
      let r := updateBotUser emptyUpdates st
      Except.ok (nowMsg r.1, r.2)
  | none => changeByName params st

/-! ## Delete handler (src/index.js lines 237-255) -/

/-- Handler `handleNameAgentDelete`: the guard `if (!params.type)`
(src/index.js line 238) is a truthiness test, so an absent or
empty-string `type` gets the whole-name refusal with no update call;
refusals for first/last/tag; clearing for `middle name`; a present,
non-empty, unrecognized `type` only logs a warning and still reaches
`updateBotUser(updates)` with the empty body. -/
def handleNameAgentDelete (params : Params) (st : BotSt) : String × BotSt :=
  match params.type with
  | none => ("I can't delete my whole name silly.", st)
  | some t =>
    if t = "" then
      ("I can't delete my whole name silly.", st)
    else if t = "first name" then
      ("I must have a first name!", st)
    else if t = "last name" then
      ("I must have a last name!", st)
    else if t = "middle name" then
      let r := updateBotUser { emptyUpdates with middle_name := some "" } st
      (nowMsg r.1, r.2)
    else if t = "tag" then
      ("I must have a tag!", st)
    else
      let r := updateBotUser emptyUpdates st
      (nowMsg r.1, r.2)

/-- A concrete bot identity used by witnesses and counterexamples. -/
def bot0 : BotUser :=
  ⟨"bot-id", "Ada", "M", "Bot", ⟨"tag-id", "ada.bot"⟩, ⟨"acme"⟩⟩

/-- A concrete fresh handler state. -/
def st0 : BotSt := ⟨bot0, 0, 0, none, none⟩

/-- Counterexample to claim C4 as stated: the delete handler issues a
user PATCH even when `type` is not `'middle name'` — an unrecognized
`type` such as `'nickname'` falls past the warning into
`updateBotUser(updates)` with the empty body. -/
theorem spec_c4_counterexample :
    (handleNameAgentDelete ⟨some "nickname", none⟩ st0).2.userPatchCount = 1 ∧
    (handleNameAgentDelete ⟨some "nickname", none⟩ st0).2.lastUserPatch
      = some emptyUpdates ∧
    "nickname" ≠ "middle name" := by
  refine ⟨?_, ?_, ?_⟩ <;> decide

/-- Claim C4 as amended: refusals with no update call for a missing or
empty (falsy) `type` and for `'first name'`/`'last name'`/`'tag'`; for
`'middle name'` one update call clearing `middle_name` to the empty
string; and for any other present, non-empty `type` value the handler
still issues one update call, with the empty PATCH body. -/
theorem spec_c4_amended (st : BotSt) (n : Option String) (t : String)
    (h0 : t ≠ "")
    (h1 : t ≠ "first name") (h2 : t ≠ "last name")
    (h3 : t ≠ "middle name") (h4 : t ≠ "tag") :
    handleNameAgentDelete ⟨none, n⟩ st = ("I can't delete my whole name silly.", st) ∧
    handleNameAgentDelete ⟨some "", n⟩ st = ("I can't delete my whole name silly.", st) ∧
    handleNameAgentDelete ⟨some "first name", n⟩ st = ("I must have a first name!", st) ∧
    handleNameAgentDelete ⟨some "last name", n⟩ st = ("I must have a last name!", st) ∧
    handleNameAgentDelete ⟨some "tag", n⟩ st = ("I must have a tag!", st) ∧
    (handleNameAgentDelete ⟨some "middle name", n⟩ st).2.lastUserPatch
      = some { emptyUpdates with middle_name := some "" } ∧
    (handleNameAgentDelete ⟨some "middle name", n⟩ st).2.userPatchCount
      = st.userPatchCount + 1 ∧
    (handleNameAgentDelete ⟨some t, n⟩ st).2.lastUserPatch = some emptyUpdates ∧
    (handleNameAgentDelete ⟨some t, n⟩ st).2.userPatchCount = st.userPatchCount + 1 := by
  refine ⟨rfl, rfl, rfl, rfl, rfl, rfl, rfl, ?_, ?_⟩ <;>
    simp [handleNameAgentDelete, updateBotUser, h0, h1, h2, h3, h4]

/-- Witness for the amended C4 at the concrete fresh state and the
unrecognized type `'nickname'`. -/
theorem spec_c4_amended_witness :
    handleNameAgentDelete ⟨none, none⟩ st0 = ("I can't delete my whole name silly.", st0) ∧
    handleNameAgentDelete ⟨some "", none⟩ st0 = ("I can't delete my whole name silly.", st0) ∧
    handleNameAgentDelete ⟨some "first name", none⟩ st0 = ("I must have a first name!", st0) ∧
    handleNameAgentDelete ⟨some "last name", none⟩ st0 = ("I must have a last name!", st0) ∧
    handleNameAgentDelete ⟨some "tag", none⟩ st0 = ("I must have a tag!", st0) ∧
    (handleNameAgentDelete ⟨some "middle name", none⟩ st0).2.lastUserPatch
      = some { emptyUpdates with middle_name := some "" } ∧
    (handleNameAgentDelete ⟨some "middle name", none⟩ st0).2.userPatchCount
      = st0.userPatchCount + 1 ∧
    (handleNameAgentDelete ⟨some "nickname", none⟩ st0).2.lastUserPatch = some emptyUpdates ∧
    (handleNameAgentDelete ⟨some "nickname", none⟩ st0).2.userPatchCount
      = st0.userPatchCount + 1 :=
  spec_c4_amended st0 none "nickname" (by decide) (by decide) (by decide) (by decide)
    (by decide)

/-- Claim C6: with `type = 'tag'` and a supplied name, the name is
normalized by collapsing each whitespace run to one dot and
lower-casing (`'New Name'` ↦ `new.name`), the tag PATCH is issued once
with exactly that slug, and the confirmation string contains the slug as
a substring. -/
theorem spec_c6_tag_change (st : BotSt) (n : String) :
    slugify "New Name" = "new.name" ∧
    ∃ msg st', handleNameAgentChange ⟨some "tag", some n⟩ st = Except.ok (msg, st') ∧
      st'.lastTagPatch = some (slugify n) ∧
      st'.tagPatchCount = st.tagPatchCount + 1 ∧
      st'.bot.tag.slug = slugify n ∧
      ∃ pre post, msg = pre ++ (slugify n ++ post) := by
  refine ⟨by decide,
    "Okay, my tag is now @" ++ slugify n ++ ":" ++ st.bot.org.slug,
    (updateBotTag (slugify n) st).2, rfl, rfl, rfl, rfl,
    "Okay, my tag is now @", ":" ++ st.bot.org.slug, ?_⟩
  rw [← String.append_assoc, ← String.append_assoc]

/-- The claim's token-count assignment rule: 1 token → first only;
2 → first+last; 3 → first+middle+last. -/
def assignByCount : List String → UserUpdates
  | [a] => ⟨some a, none, none⟩
  | [a, b] => ⟨some a, none, some b⟩
  | [a, b, c] => ⟨some a, some b, some c⟩
  | _ => emptyUpdates

theorem splitWsGo_ne_nil (l : List Char) : ∀ acc, splitWsGo acc l ≠ [] := by
  induction l with
  | nil =>
    intro acc
    cases acc <;> simp [splitWsGo]
  | cons c cs ih =>
    intro acc
    cases acc with
    | some a =>
      by_cases hw : c.isWhitespace = true <;> simp [splitWsGo, hw, ih]
    | none =>
      by_cases hw : c.isWhitespace = true <;> simp [splitWsGo, hw, ih]

theorem splitWs_ne_nil (s : String) : splitWs s ≠ [] :=
  splitWsGo_ne_nil s.data (some [])

theorem change_upd_eq_assign (ns : List String) (h1 : ns ≠ []) (h2 : ns.length ≤ 3) :
    ({ first_name := ns.get? 0,
       middle_name := if ns.length = 3 then ns.get? 1 else none,
       last_name :=
         if ns.length = 2 then ns.get? 1
         else if ns.length = 3 then ns.get? 2
         else none } : UserUpdates)
      = assignByCount ns := by
  match ns with
  | [] => exact absurd rfl h1
  | [a] => rfl
  | [a, b] => rfl
  | [a, b, c] => rfl
  | a :: b :: c :: d :: t =>
    exfalso
    simp only [List.length_cons] at h2
    omega

/-- Claim C7: with no `type` and a free-form `name`, the name is split on
whitespace runs into at most 3 tokens and the update body follows the
token count — 1 token sets first only, 2 sets first and last, 3 sets
first, middle and last; in particular `'Ada Lovelace'` yields an update
with first `Ada` and last `Lovelace`. -/
theorem spec_c7_name_split (st : BotSt) (n : String) (h : n ≠ "") :
    (∃ st', handleNameAgentChange ⟨none, some n⟩ st = Except.ok (nowMsg st'.bot, st') ∧
      st'.lastUserPatch = some (assignByCount ((splitWs n).take 3)) ∧
      st'.userPatchCount = st.userPatchCount + 1) ∧
    (splitWs "Ada Lovelace").take 3 = ["Ada", "Lovelace"] ∧
    assignByCount ["Ada", "Lovelace"] = ⟨some "Ada", none, some "Lovelace"⟩ := by
  have hlen : ((splitWs n).take 3).length ≤ 3 := by
    rw [List.length_take]
    exact Nat.min_le_left 3 _
  have hne : (splitWs n).take 3 ≠ [] := by
    have hpos : 0 < (splitWs n).length :=
      List.length_pos.mpr (splitWs_ne_nil n)
    have : 0 < ((splitWs n).take 3).length := by
      rw [List.length_take]
      omega
    exact List.ne_nil_of_length_pos this
  have hkey := change_upd_eq_assign ((splitWs n).take 3) hne hlen
  refine ⟨⟨(updateBotUser (assignByCount ((splitWs n).take 3)) st).2, ?_, rfl, rfl⟩,
    by decide, rfl⟩
  simp only [handleNameAgentChange, changeByName, if_neg h, hkey]
  rfl

/-! ## Message pipeline (src/index.js lines 86-135)

One `message` event: pick the first `text/plain` body part (an absent or
empty — falsy — text skips the message), gate on `needsResponse`, query
the NLU service (a failure aborts the handling with no send), dispatch
the found handler, merge its outcome, substitute the fallback for a
falsy text, and send.  `Except Unit NluResult` stands for the NLU call:
`Except.error` is a rejected request.  Handler execution is abstracted
by `run : HandlerId → HandlerOutcome`: a returned string, a returned
merge object (with optional `text`/`html` fields), or a thrown error
with printable description `e`. -/

/-- One entry of `msg.data.body`. -/
structure BodyPart where
  type : String
  value : String
deriving DecidableEq

/-- First `text/plain` part, if any (src/index.js lines 89-96). -/
def findTextPart : List BodyPart → Option String
  | [] => none
  | p :: ps => if p.type = "text/plain" then some p.value else findTextPart ps

/-- Field `aiResp.fulfillment`. -/
structure Fulfillment where
  speech : String
deriving DecidableEq

/-- The NLU result fields the listener reads. -/
structure NluResult where
  action : String
  fulfillment : Fulfillment
deriving DecidableEq

/-- Outcome of running a dispatched handler. -/
inductive HandlerOutcome where
  | str : String → HandlerOutcome
  | obj : Option String → Option String → HandlerOutcome
  | err : String → HandlerOutcome
deriving DecidableEq

/-- The outgoing message (src/index.js lines 112-116). -/
structure RespMsg where
  distribution : Distribution
  threadId : String
  text : String
  html : Option String
deriving DecidableEq

/-- Fallback `I have nothing to do with: "<action>"` (src/index.js line 132). -/
def fallbackText (action : String) : String :=
  "I have nothing to do with: \"" ++ action ++ "\""

/-- The apology text of src/index.js line 127 (`${e}` is the error's
printable description). -/
def apologyText (e : String) : String :=
  "Affraid I can't do that boss...\n(" ++ e ++ ")"

/-- The HTML apology of src/index.js line 128. -/
def apologyHtml (e : String) : String :=
  "Affraid I can't do that boss...<br/><pre>" ++ e ++ "</pre>"

/-- Merge of the handler outcome onto the default response
(src/index.js lines 117-129): a string replaces `text`; an object's
present fields are assigned over the response; a thrown error installs
the apology text and html. -/
def mergeOutcome (dist : Distribution) (tid : String) (speech : String) :
    Option HandlerOutcome → RespMsg
  | none => ⟨dist, tid, speech, none⟩
  | some (HandlerOutcome.str s) => ⟨dist, tid, s, none⟩
  | some (HandlerOutcome.obj t h) => ⟨dist, tid, t.getD speech, h⟩
  | some (HandlerOutcome.err e) => ⟨dist, tid, apologyText e, some (apologyHtml e)⟩

/-- The composed response: merge, then replace a falsy (empty) text with
the fallback (src/index.js lines 131-133). -/
def composeResponse (dist : Distribution) (tid : String) (speech action : String)
    (outcome : Option HandlerOutcome) : RespMsg :=
  if (mergeOutcome dist tid speech outcome).text = "" then
    { mergeOutcome dist tid speech outcome with text := fallbackText action }
  else
    mergeOutcome dist tid speech outcome

/-- The whole `message` event listener as a function from its inputs to
the message handed to `msgSend.send` (`none` = nothing sent). -/
def processMessage (bot : BotUser) (sender : String) (dist : Distribution)
    (body : List BodyPart) (threadId : String) (nlu : Except Unit NluResult)
    (run : HandlerId → HandlerOutcome) : Option RespMsg :=
  match findTextPart body with
  | none => none
  | some text =>
    if text = "" then
      none
    else if needsResponse bot sender dist text then
      match nlu with
      | Except.error _ => none
      | Except.ok res =>
        some (composeResponse dist threadId res.fulfillment.speech res.action
          ((findHandler res.action).map run))
    else
      none

theorem append_ne_empty_left (s t : String) (h : s ≠ "") : s ++ t ≠ "" := by
  intro he
  apply h
  have hd : s.data ++ t.data = ([] : List Char) := by
    rw [← String.data_append, he]
  apply String.ext
  rw [(List.append_eq_nil.mp hd).1]

theorem fallbackText_ne_empty (action : String) : fallbackText action ≠ "" :=
  append_ne_empty_left _ _ (append_ne_empty_left _ _ (by decide))

theorem apologyText_ne_empty (e : String) : apologyText e ≠ "" :=
  append_ne_empty_left _ _ (append_ne_empty_left _ _ (by decide))

theorem composeResponse_text_ne_empty (dist : Distribution) (tid : String)
    (speech action : String) (outcome : Option HandlerOutcome) :
    (composeResponse dist tid speech action outcome).text ≠ "" := by
  unfold composeResponse
  by_cases h : (mergeOutcome dist tid speech outcome).text = ""
  · rw [if_pos h]
    exact fallbackText_ne_empty action
  · rw [if_neg h]
    exact h

/-- Counterexample to claim C2 as stated: with no handler for the action
but a non-empty NLU fulfillment speech, the sent text is the speech, not
the `I have nothing to do with` fallback (src/index.js line 131 only
replaces a falsy text). -/
theorem spec_c2_counterexample :
    processMessage bot0 "alice" ⟨[]⟩ [⟨"text/plain", "hi"⟩] "t1"
      (Except.ok ⟨"unknown.intent", ⟨"hello"⟩⟩) (fun _ => HandlerOutcome.str "x")
      = some ⟨⟨[]⟩, "t1", "hello", none⟩ ∧
    findHandler "unknown.intent" = none ∧
    "hello" ≠ fallbackText "unknown.intent" := by
  refine ⟨?_, ?_, ?_⟩ <;> decide

/-- Claim C2 as amended: when the NLU action has no registered handler,
the response text becomes `I have nothing to do with: "<action>"` only
when the NLU fulfillment speech is empty (falsy); otherwise the speech
itself is sent. -/
theorem spec_c2_amended (bot : BotUser) (sender : String) (dist : Distribution)
    (body : List BodyPart) (tid : String) (res : NluResult)
    (run : HandlerId → HandlerOutcome) (text : String)
    (h1 : findTextPart body = some text) (h2 : text ≠ "")
    (h3 : needsResponse bot sender dist text = true)
    (h4 : findHandler res.action = none) :
    processMessage bot sender dist body tid (Except.ok res) run
      = some ⟨dist, tid,
          if res.fulfillment.speech = "" then fallbackText res.action
          else res.fulfillment.speech, none⟩ := by
  unfold processMessage
  rw [h1]
  simp only [if_neg h2, h3, if_true]
  rw [h4]
  unfold composeResponse
  by_cases hs : res.fulfillment.speech = ""
  · simp [mergeOutcome, hs]
  · simp [mergeOutcome, hs]

/-- Witness for the amended C2: empty speech and the unregistered action
`unknown.intent` produce exactly the fallback text. -/
theorem spec_c2_amended_witness :
    processMessage bot0 "alice" ⟨[]⟩ [⟨"text/plain", "hi"⟩] "t1"
      (Except.ok ⟨"unknown.intent", ⟨""⟩⟩) (fun _ => HandlerOutcome.str "x")
      = some ⟨⟨[]⟩, "t1", fallbackText "unknown.intent", none⟩ := by
  have h := spec_c2_amended bot0 "alice" ⟨[]⟩ [⟨"text/plain", "hi"⟩] "t1"
    ⟨"unknown.intent", ⟨""⟩⟩ (fun _ => HandlerOutcome.str "x") "hi"
    rfl (by decide) (by decide) (by decide)
  simpa using h

/-- Claim C8: a message whose dispatched handler fails is still
answered; the reply's text is the apology embedding the error's
printable description and its html is the apology with the detail inside
a `pre` element. -/
theorem spec_c8_handler_error (bot : BotUser) (sender : String) (dist : Distribution)
    (body : List BodyPart) (tid : String) (res : NluResult)
    (run : HandlerId → HandlerOutcome) (text : String) (hid : HandlerId) (e : String)
    (h1 : findTextPart body = some text) (h2 : text ≠ "")
    (h3 : needsResponse bot sender dist text = true)
    (h4 : findHandler res.action = some hid) (h5 : run hid = HandlerOutcome.err e) :
    processMessage bot sender dist body tid (Except.ok res) run
      = some ⟨dist, tid, apologyText e, some (apologyHtml e)⟩ := by
  unfold processMessage
  rw [h1]
  simp only [if_neg h2, h3, if_true]
  rw [h4]
  have hm : Option.map run (some hid) = some (HandlerOutcome.err e) := by
    simp [h5]
  rw [hm]
  simp [composeResponse, mergeOutcome, apologyText_ne_empty e]

/-- Witness for C8 at a direct message whose `name.agent.get` handler
throws `Error: boom`. -/
theorem spec_c8_handler_error_witness :
    processMessage bot0 "alice" ⟨[]⟩ [⟨"text/plain", "hi"⟩] "t1"
      (Except.ok ⟨"name.agent.get", ⟨"speech"⟩⟩)
      (fun _ => HandlerOutcome.err "Error: boom")
      = some ⟨⟨[]⟩, "t1", apologyText "Error: boom",
              some (apologyHtml "Error: boom")⟩ :=
  spec_c8_handler_error bot0 "alice" ⟨[]⟩ [⟨"text/plain", "hi"⟩] "t1"
    ⟨"name.agent.get", ⟨"speech"⟩⟩ (fun _ => HandlerOutcome.err "Error: boom")
    "hi" HandlerId.get "Error: boom" rfl (by decide) (by decide) (by decide) rfl

/-- Claim C9: a failed NLU query aborts the message's processing — the
listener sends nothing. -/
theorem spec_c9_nlu_failure (bot : BotUser) (sender : String) (dist : Distribution)
    (body : List BodyPart) (tid : String) (run : HandlerId → HandlerOutcome) :
    processMessage bot sender dist body tid (Except.error ()) run = none := by
  unfold processMessage
  cases h : findTextPart body with
  | none => rfl
  | some text =>
    by_cases h2 : text = ""
    · simp [h2]
    · by_cases h3 : needsResponse bot sender dist text <;> simp [h2, h3]

/-- Claim C10: every sent response has a non-empty text — the composer
replaces a falsy text (in particular a handler-returned empty string,
whatever the fulfillment speech) with the `I have nothing to do with`
fallback. -/
theorem spec_c10_no_empty_text (bot : BotUser) (sender : String)
    (dist : Distribution) (body : List BodyPart) (tid : String) (res : NluResult)
    (run : HandlerId → HandlerOutcome) (msg : RespMsg)
    (h : processMessage bot sender dist body tid (Except.ok res) run = some msg) :
    msg.text ≠ "" ∧
    (composeResponse dist tid res.fulfillment.speech res.action
      (some (HandlerOutcome.str ""))).text = fallbackText res.action := by
  refine ⟨?_, rfl⟩
  unfold processMessage at h
  split at h
  · exact Option.noConfusion h
  · split at h
    · exact Option.noConfusion h
    · split at h
      · injection h with h
        rw [← h]
        exact composeResponse_text_ne_empty _ _ _ _ _
      · exact Option.noConfusion h

/-- Witness for C10 on a direct message whose handler returns a
non-empty string. -/
theorem spec_c10_no_empty_text_witness :
    (⟨⟨[]⟩, "t1", "yo", none⟩ : RespMsg).text ≠ "" ∧
    (composeResponse ⟨[]⟩ "t1" "hello" "name.agent.get"
      (some (HandlerOutcome.str ""))).text = fallbackText "name.agent.get" :=
  spec_c10_no_empty_text bot0 "alice" ⟨[]⟩ [⟨"text/plain", "hi"⟩] "t1"
    ⟨"name.agent.get", ⟨"hello"⟩⟩ (fun _ => HandlerOutcome.str "yo")
    ⟨⟨[]⟩, "t1", "yo", none⟩ (by decide)

/-- Witness for C7 at the concrete fresh state and the two-token name
`'Ada Lovelace'`. -/
theorem spec_c7_name_split_witness :
    (∃ st', handleNameAgentChange ⟨none, some "Ada Lovelace"⟩ st0
        = Except.ok (nowMsg st'.bot, st') ∧
      st'.lastUserPatch = some (assignByCount ((splitWs "Ada Lovelace").take 3)) ∧
      st'.userPatchCount = st0.userPatchCount + 1) ∧
    (splitWs "Ada Lovelace").take 3 = ["Ada", "Lovelace"] ∧
    assignByCount ["Ada", "Lovelace"] = ⟨some "Ada", none, some "Lovelace"⟩ :=
  spec_c7_name_split st0 "Ada Lovelace" (by decide)
